import Mathlib

/-!
Shallow embedding of `caravel/db_engine_specs.py`: per-engine SQL-dialect
specifications (time-grain catalogs, epoch-to-timestamp templates, datetime
literal conversion) and the module-level `engines` registry.

Python classes are modelled as an enumeration of class names together with
maps giving the attributes each class declares itself; attribute access walks
the method-resolution order, exactly as single inheritance does in the source.
Python exceptions become an explicit error type, and fallible calls return
`Except`.
-/

/-- Python exceptions raised on the code paths of the module (plus the
spec-level UnknownEngineError for failed registry resolution). -/
inductive PyError where
  | notImplementedError
  | typeError
  | nameError
  | unknownEngineError
  deriving DecidableEq, Repr

/-- A naive Python `datetime.datetime` value (no timezone). -/
structure PyDatetime where
  year : Nat
  month : Nat
  day : Nat
  hour : Nat
  minute : Nat
  second : Nat
  microsecond : Nat
  deriving DecidableEq, Repr

def pad2 (n : Nat) : String :=
  if n < 10 then "0" ++ toString n else toString n

def pad4 (n : Nat) : String :=
  if n < 10 then "000" ++ toString n
  else if n < 100 then "00" ++ toString n
  else if n < 1000 then "0" ++ toString n
  else toString n

def pad6 (n : Nat) : String :=
  if n < 10 then "00000" ++ toString n
  else if n < 100 then "0000" ++ toString n
  else if n < 1000 then "000" ++ toString n
  else if n < 10000 then "00" ++ toString n
  else if n < 100000 then "0" ++ toString n
  else toString n

/-- The strftime pattern used throughout the module: year-month-day
hour:minute:second, all zero padded. -/
def strftimeYmdHMS (d : PyDatetime) : String :=
  pad4 d.year ++ "-" ++ pad2 d.month ++ "-" ++ pad2 d.day ++ " " ++
  pad2 d.hour ++ ":" ++ pad2 d.minute ++ ":" ++ pad2 d.second

/-- Python `datetime.isoformat()`: date and time joined by T, with the
six-digit microsecond field present only when it is nonzero. -/
def isoformat (d : PyDatetime) : String :=
  pad4 d.year ++ "-" ++ pad2 d.month ++ "-" ++ pad2 d.day ++ "T" ++
  pad2 d.hour ++ ":" ++ pad2 d.minute ++ ":" ++ pad2 d.second ++
  (if d.microsecond = 0 then "" else "." ++ pad6 d.microsecond)

/-- Wrap a string in single quotes, as the format strings of the module do. -/
def quoteLit (s : String) : String := "'" ++ s ++ "'"

/-- Python `str.replace` on character lists: scan left to right, replacing
each non-overlapping occurrence of the pattern.  The fuel argument bounds the
recursion; calling with fuel equal to the input length is exact whenever the
pattern is nonempty. -/
def replaceChars : Nat → List Char → List Char → List Char → List Char
  | 0, s, _, _ => s
  | _ + 1, [], _, _ => []
  | fuel + 1, c :: rest, pat, rep =>
    if pat.isPrefixOf (c :: rest) then
      rep ++ replaceChars fuel ((c :: rest).drop pat.length) pat rep
    else
      c :: replaceChars fuel rest pat rep

/-- Python `str.replace(pat, rep)` for a nonempty pattern. -/
def pyReplace (s pat rep : String) : String :=
  ⟨replaceChars s.data.length s.data pat.data rep.data⟩

/-- Python `str.upper()` (the module only applies it to ASCII type names). -/
def pyUpper (s : String) : String := ⟨s.data.map Char.toUpper⟩

/-- Python `c in s` for a single character. -/
def pyContainsChar (s : String) (c : Char) : Bool := s.data.contains c

/-- flask_babel `lazy_gettext`: in the default locale the label is the
message itself; the core passes labels through opaquely. -/
def lazy_gettext (s : String) : String := s

/-- The `Grain` namedtuple: `Grain = namedtuple('Grain', 'name label function')`. -/
structure Grain where
  name : String
  label : String
  function : String
  deriving DecidableEq, Repr

/-- The engine-spec classes defined at module level. -/
inductive Engine where
  | base
  | postgres
  | sqlite
  | mysql
  | presto
  | mssql
  | redshift
  | oracle
  | vertica
  deriving DecidableEq, Repr, Fintype

/-- Method-resolution order of each class: `BaseEngineSpec` is the root,
`RedshiftEngineSpec`, `OracleEngineSpec` and `VerticaEngineSpec` extend
`PostgresEngineSpec`, and every other spec extends the base directly. -/
def mro : Engine → List Engine
  | .base => [.base]
  | .redshift => [.redshift, .postgres, .base]
  | .oracle => [.oracle, .postgres, .base]
  | .vertica => [.vertica, .postgres, .base]
  | e => [e, .base]

/-- Python attribute lookup: the first class along the MRO that declares the
attribute provides it. -/
def resolveAttr {α : Type} (declared : Engine → Option α) (e : Engine) : Option α :=
  (mro e).findSome? declared

/-- The `engine` class attribute (declared on every class). -/
def engineName : Engine → String
  | .base => "base"
  | .postgres => "postgres"
  | .sqlite => "sqlite"
  | .mysql => "mysql"
  | .presto => "presto"
  | .mssql => "mssql"
  | .redshift => "redshift"
  | .oracle => "oracle"
  | .vertica => "vertica"

/-- `PostgresEngineSpec.time_grains`. -/
def postgresTimeGrains : List Grain :=
  [ ⟨"Time Column", lazy_gettext "Time Column", "{col}"⟩,
    ⟨"second", lazy_gettext "second", "DATE_TRUNC('second', {col})"⟩,
    ⟨"minute", lazy_gettext "minute", "DATE_TRUNC('minute', {col})"⟩,
    ⟨"hour", lazy_gettext "hour", "DATE_TRUNC('hour', {col})"⟩,
    ⟨"day", lazy_gettext "day", "DATE_TRUNC('day', {col})"⟩,
    ⟨"week", lazy_gettext "week", "DATE_TRUNC('week', {col})"⟩,
    ⟨"month", lazy_gettext "month", "DATE_TRUNC('month', {col})"⟩,
    ⟨"quarter", lazy_gettext "quarter", "DATE_TRUNC('quarter', {col})"⟩,
    ⟨"year", lazy_gettext "year", "DATE_TRUNC('year', {col})"⟩ ]

/-- `SqliteEngineSpec.time_grains`. -/
def sqliteTimeGrains : List Grain :=
  [ ⟨"Time Column", lazy_gettext "Time Column", "{col}"⟩,
    ⟨"day", lazy_gettext "day", "DATE({col})"⟩,
    ⟨"week", lazy_gettext "week",
      "DATE({col}, -strftime('%w', {col}) || ' days')"⟩,
    ⟨"month", lazy_gettext "month",
      "DATE({col}, -strftime('%d', {col}) || ' days')"⟩ ]

/-- `MySQLEngineSpec.time_grains` (adjacent string literals of the source
joined into one template each). -/
def mysqlTimeGrains : List Grain :=
  [ ⟨"Time Column", lazy_gettext "Time Column", "{col}"⟩,
    ⟨"second", lazy_gettext "second",
      "DATE_ADD(DATE({col}), INTERVAL (HOUR({col})*60*60 + MINUTE({col})*60 + SECOND({col})) SECOND)"⟩,
    ⟨"minute", lazy_gettext "minute",
      "DATE_ADD(DATE({col}), INTERVAL (HOUR({col})*60 + MINUTE({col})) MINUTE)"⟩,
    ⟨"hour", lazy_gettext "hour",
      "DATE_ADD(DATE({col}), INTERVAL HOUR({col}) HOUR)"⟩,
    ⟨"day", lazy_gettext "day", "DATE({col})"⟩,
    ⟨"week", lazy_gettext "week",
      "DATE(DATE_SUB({col}, INTERVAL DAYOFWEEK({col}) - 1 DAY))"⟩,
    ⟨"month", lazy_gettext "month",
      "DATE(DATE_SUB({col}, INTERVAL DAYOFMONTH({col}) - 1 DAY))"⟩ ]

/-- `PrestoEngineSpec.time_grains`. -/
def prestoTimeGrains : List Grain :=
  [ ⟨"Time Column", lazy_gettext "Time Column", "{col}"⟩,
    ⟨"second", lazy_gettext "second",
      "date_trunc('second', CAST({col} AS TIMESTAMP))"⟩,
    ⟨"minute", lazy_gettext "minute",
      "date_trunc('minute', CAST({col} AS TIMESTAMP))"⟩,
    ⟨"hour", lazy_gettext "hour",
      "date_trunc('hour', CAST({col} AS TIMESTAMP))"⟩,
    ⟨"day", lazy_gettext "day",
      "date_trunc('day', CAST({col} AS TIMESTAMP))"⟩,
    ⟨"week", lazy_gettext "week",
      "date_trunc('week', CAST({col} AS TIMESTAMP))"⟩,
    ⟨"month", lazy_gettext "month",
      "date_trunc('month', CAST({col} AS TIMESTAMP))"⟩,
    ⟨"quarter", lazy_gettext "quarter",
      "date_trunc('quarter', CAST({col} AS TIMESTAMP))"⟩,
    ⟨"week_ending_saturday", lazy_gettext "week_ending_saturday",
      "date_add('day', 5, date_trunc('week', date_add('day', 1, CAST({col} AS TIMESTAMP))))"⟩,
    ⟨"week_start_sunday", lazy_gettext "week_start_sunday",
      "date_add('day', -1, date_trunc('week', date_add('day', 1, CAST({col} AS TIMESTAMP))))"⟩ ]

/-- `MssqlEngineSpec.time_grains`. -/
def mssqlTimeGrains : List Grain :=
  [ ⟨"Time Column", lazy_gettext "Time Column", "{col}"⟩,
    ⟨"second", lazy_gettext "second",
      "DATEADD(second, DATEDIFF(second, '2000-01-01', {col}), '2000-01-01')"⟩,
    ⟨"minute", lazy_gettext "minute",
      "DATEADD(minute, DATEDIFF(minute, 0, {col}), 0)"⟩,
    ⟨"5 minute", lazy_gettext "5 minute",
      "DATEADD(minute, DATEDIFF(minute, 0, {col}) / 5 * 5, 0)"⟩,
    ⟨"half hour", lazy_gettext "half hour",
      "DATEADD(minute, DATEDIFF(minute, 0, {col}) / 30 * 30, 0)"⟩,
    ⟨"hour", lazy_gettext "hour",
      "DATEADD(hour, DATEDIFF(hour, 0, {col}), 0)"⟩,
    ⟨"day", lazy_gettext "day",
      "DATEADD(day, DATEDIFF(day, 0, {col}), 0)"⟩,
    ⟨"week", lazy_gettext "week",
      "DATEADD(week, DATEDIFF(week, 0, {col}), 0)"⟩,
    ⟨"month", lazy_gettext "month",
      "DATEADD(month, DATEDIFF(month, 0, {col}), 0)"⟩,
    ⟨"quarter", lazy_gettext "quarter",
      "DATEADD(quarter, DATEDIFF(quarter, 0, {col}), 0)"⟩,
    ⟨"year", lazy_gettext "year",
      "DATEADD(year, DATEDIFF(year, 0, {col}), 0)"⟩ ]

/-- The `time_grains` attribute each class declares itself (`none` where the
source class declares no such attribute and inherits it). -/
def declaredTimeGrains : Engine → Option (List Grain)
  | .base => some []
  | .postgres => some postgresTimeGrains
  | .sqlite => some sqliteTimeGrains
  | .mysql => some mysqlTimeGrains
  | .presto => some prestoTimeGrains
  | .mssql => some mssqlTimeGrains
  | _ => none

/-- Attribute access `cls.time_grains`; the base class always declares it,
so the default of the resolution is never reached. -/
def time_grains (e : Engine) : List Grain :=
  (resolveAttr declaredTimeGrains e).getD []

instance {ε α : Type} [DecidableEq ε] [DecidableEq α] : DecidableEq (Except ε α) :=
  fun a b =>
    match a, b with
    | .ok x, .ok y =>
      if h : x = y then .isTrue (congrArg Except.ok h)
      else .isFalse (fun hc => h (by cases hc; rfl))
    | .error x, .error y =>
      if h : x = y then .isTrue (congrArg Except.error h)
      else .isFalse (fun hc => h (by cases hc; rfl))
    | .ok _, .error _ => .isFalse (fun hc => by cases hc)
    | .error _, .ok _ => .isFalse (fun hc => by cases hc)

/-- What a class declares under the name `epoch_to_dttm`: every class but
mssql that declares it declares a classmethod (represented by the result of
calling it), while `MssqlEngineSpec` assigns a plain string to the name. -/
inductive EpochAttr where
  | method (result : Except PyError String)
  | strAttr (s : String)
  deriving DecidableEq, Repr

/-- Evaluate the call `cls.epoch_to_dttm()` on the resolved attribute:
a classmethod runs its body; calling a plain string raises TypeError. -/
def callEpochAttr : EpochAttr → Except PyError String
  | .method r => r
  | .strAttr _ => .error .typeError

/-- The `epoch_to_dttm` attribute each class declares itself.  The base
classmethod raises NotImplementedError; `MssqlEngineSpec` assigns the string
template directly instead of defining a classmethod. -/
def declaredEpochToDttm : Engine → Option EpochAttr
  | .base => some (.method (.error .notImplementedError))
  | .postgres => some (.method (.ok "(timestamp 'epoch' + {col} * interval '1 second')"))
  | .sqlite => some (.method (.ok "datetime({col}, 'unixepoch')"))
  | .mysql => some (.method (.ok "from_unixtime({col})"))
  | .presto => some (.method (.ok "from_unixtime({col})"))
  | .mssql => some (.strAttr "dateadd(S, {col}, '1970-01-01')")
  | _ => none

/-- The call `cls.epoch_to_dttm()` after attribute resolution. -/
def epoch_to_dttm (e : Engine) : Except PyError String :=
  callEpochAttr ((resolveAttr declaredEpochToDttm e).getD
    (.method (.error .notImplementedError)))

/-- `BaseEngineSpec.epoch_ms_to_dttm` (declared only on the base class and
inherited everywhere): `cls.epoch_to_dttm().replace(pat, rep)` with the column
placeholder rewritten to divide by 1000.0. -/
def epoch_ms_to_dttm (e : Engine) : Except PyError String :=
  (epoch_to_dttm e).map (fun s => pyReplace s "{col}" "({col}/1000.0)")

/-- `BaseEngineSpec.convert_dttm`: the quoted strftime literal, ignoring
target_type. -/
def baseConvertDttm (_target_type : String) (dttm : PyDatetime) :
    Except PyError String :=
  .ok (quoteLit (strftimeYmdHMS dttm))

/-- `PostgresEngineSpec.convert_dttm`: a re-declaration with the same body as
the base method. -/
def postgresConvertDttm (_target_type : String) (dttm : PyDatetime) :
    Except PyError String :=
  .ok (quoteLit (strftimeYmdHMS dttm))

/-- `SqliteEngineSpec.convert_dttm`: ISO text with the T separator replaced
by a space, padded with microseconds when none are present, then quoted. -/
def sqliteConvertDttm (_target_type : String) (dttm : PyDatetime) :
    Except PyError String :=
  let iso := pyReplace (isoformat dttm) "T" " "
  let iso := if pyContainsChar iso '.' then iso else iso ++ ".000000"
  .ok (quoteLit iso)

/-- `MySQLEngineSpec.convert_dttm`: a STR_TO_DATE parse call when the
upper-cased target type is DATETIME or DATE, otherwise the bare quoted
literal. -/
def mysqlConvertDttm (target_type : String) (dttm : PyDatetime) :
    Except PyError String :=
  if pyUpper target_type = "DATETIME" ∨ pyUpper target_type = "DATE" then
    .ok ("STR_TO_DATE('" ++ strftimeYmdHMS dttm ++ "', '%Y-%m-%d %H:%i:%s')")
  else
    .ok (quoteLit (strftimeYmdHMS dttm))

/-- `PrestoEngineSpec.convert_dttm`: a from_iso8601_date call when the
upper-cased target type is DATE or DATETIME, otherwise the bare quoted
literal. -/
def prestoConvertDttm (target_type : String) (dttm : PyDatetime) :
    Except PyError String :=
  if pyUpper target_type = "DATE" ∨ pyUpper target_type = "DATETIME" then
    .ok ("from_iso8601_date('" ++ isoformat dttm ++ "')")
  else
    .ok (quoteLit (strftimeYmdHMS dttm))

/-- `MssqlEngineSpec.convert_dttm`: the body reads the name `iso`, which is
bound neither in the method nor at module level, so every call raises
NameError before producing a string. -/
def mssqlConvertDttm (_target_type : String) (_dttm : PyDatetime) :
    Except PyError String :=
  .error .nameError

/-- `OracleEngineSpec.convert_dttm`: a TO_TIMESTAMP parse call around the ISO
text, ignoring target_type. -/
def oracleConvertDttm (_target_type : String) (dttm : PyDatetime) :
    Except PyError String :=
  .ok ("TO_TIMESTAMP('" ++ isoformat dttm ++ "', 'YYYY-MM-DD\"T\"HH24:MI:SS.ff6')")

/-- The `convert_dttm` attribute each class declares itself. -/
def declaredConvertDttm : Engine → Option (String → PyDatetime → Except PyError String)
  | .base => some baseConvertDttm
  | .postgres => some postgresConvertDttm
  | .sqlite => some sqliteConvertDttm
  | .mysql => some mysqlConvertDttm
  | .presto => some prestoConvertDttm
  | .mssql => some mssqlConvertDttm
  | .oracle => some oracleConvertDttm
  | _ => none

/-- The call `cls.convert_dttm(target_type, dttm)` after attribute
resolution; the base class always declares the method, so the default of the
resolution is never reached. -/
def convert_dttm (e : Engine) (target_type : String) (dttm : PyDatetime) :
    Except PyError String :=
  ((resolveAttr declaredConvertDttm e).getD baseConvertDttm) target_type dttm

/-- The module-level classes subclassing `BaseEngineSpec` (the base included,
as `issubclass` is reflexive), in their order of definition, which is the
iteration order of `globals()`. -/
def allEngineClasses : List Engine :=
  [.base, .postgres, .sqlite, .mysql, .presto, .mssql, .redshift, .oracle, .vertica]

/-- The module-level registry
`engines = \x7bo.engine: o for o in globals().values() if ...\x7d`,
a mapping from each class's `engine` attribute to the class. -/
def engines : List (String × Engine) :=
  allEngineClasses.map (fun c => (engineName c, c))

/-- Dictionary lookup `engines[ident]`, returning `none` exactly when the key
is absent (a Python KeyError). -/
def lookupEngine (ident : String) : Option Engine :=
  (engines.find? (fun p => p.1 == ident)).map (fun p => p.2)

/-- Modelled from the spec: the resolve operation of the registry is not in
src (only the `engines` dict is); per the spec it returns the registered spec
and fails with UnknownEngineError for an unregistered identifier, never
falling back to the base spec. -/
def resolveEngine (ident : String) : Except PyError Engine :=
  match lookupEngine ident with
  | some c => .ok c
  | none => .error .unknownEngineError

/-- Modelled from the spec: applying a grain to a column substitutes the
column expression for the `col` placeholder of the grain's template; the
caller performing this substitution is outside src. -/
def substColumn (template col : String) : String :=
  pyReplace template "{col}" col

/-- Select a grain by name from a catalog. -/
def findGrain (n : String) (gs : List Grain) : Option Grain :=
  gs.find? (fun g => g.name == n)

/-- C1: the claimed derivation — epoch_ms_to_dttm() is epoch_to_dttm() with
the column placeholder wrapped in a division by 1000.0 — breaks on the mssql
engine: `MssqlEngineSpec` assigns its seconds template to `epoch_to_dttm` as
a plain string instead of a classmethod, so `cls.epoch_to_dttm()` raises
TypeError and `epoch_ms_to_dttm()` fails instead of returning the
substituted template, even though the intended template string is present
verbatim on the class. -/
theorem c1_mssql_epoch_ms_to_dttm_fails :
    epoch_ms_to_dttm Engine.mssql = Except.error PyError.typeError ∧
    declaredEpochToDttm Engine.mssql =
      some (EpochAttr.strAttr "dateadd(S, {col}, '1970-01-01')") ∧
    epoch_ms_to_dttm Engine.postgres =
      Except.ok "(timestamp 'epoch' + ({col}/1000.0) * interval '1 second')" ∧
    epoch_ms_to_dttm Engine.sqlite =
      Except.ok "datetime(({col}/1000.0), 'unixepoch')" ∧
    epoch_ms_to_dttm Engine.mysql = Except.ok "from_unixtime(({col}/1000.0))" := by
  decide

/-- C2: the mssql convert_dttm override reads the unbound name `iso`, so for
every target type and datetime it raises NameError and never returns a SQL
literal. -/
theorem c2_mssql_convert_dttm_always_name_error
    (target_type : String) (dttm : PyDatetime) :
    convert_dttm Engine.mssql target_type dttm = Except.error PyError.nameError :=
  rfl

/-- C3: resolving an identifier that is not a key of the engines registry
fails with UnknownEngineError and never returns a spec, in particular never
the base spec. -/
theorem c3_unregistered_resolution_fails (ident : String)
    (h : ident ∉ engines.map Prod.fst) :
    resolveEngine ident = Except.error PyError.unknownEngineError := by
  have hn : engines.find? (fun p => p.1 == ident) = none := by
    apply List.find?_eq_none.mpr
    intro p hp hb
    exact h (List.mem_map.mpr ⟨p, hp, eq_of_beq hb⟩)
  simp [resolveEngine, lookupEngine, hn]

theorem c3_unregistered_resolution_fails_witness :
    resolveEngine "not_a_real_engine" = Except.error PyError.unknownEngineError :=
  c3_unregistered_resolution_fails "not_a_real_engine" (by decide)

/-- C4: redshift and vertica delegate to postgres and override nothing, so
their grain catalogs (hence every substituted grain fragment), their
epoch_to_dttm template and their convert_dttm results are identical to the
postgres ones; oracle also inherits the postgres grains and epoch template
but explicitly overrides convert_dttm. -/
theorem c4_delegating_engines_match_base :
    time_grains Engine.redshift = time_grains Engine.postgres ∧
    time_grains Engine.vertica = time_grains Engine.postgres ∧
    time_grains Engine.oracle = time_grains Engine.postgres ∧
    (∀ n col,
      (findGrain n (time_grains Engine.redshift)).map
        (fun g => substColumn g.function col) =
      (findGrain n (time_grains Engine.postgres)).map
        (fun g => substColumn g.function col)) ∧
    (∀ n col,
      (findGrain n (time_grains Engine.vertica)).map
        (fun g => substColumn g.function col) =
      (findGrain n (time_grains Engine.postgres)).map
        (fun g => substColumn g.function col)) ∧
    epoch_to_dttm Engine.redshift = epoch_to_dttm Engine.postgres ∧
    epoch_to_dttm Engine.vertica = epoch_to_dttm Engine.postgres ∧
    epoch_to_dttm Engine.oracle = epoch_to_dttm Engine.postgres ∧
    (∀ t d, convert_dttm Engine.redshift t d = convert_dttm Engine.postgres t d) ∧
    (∀ t d, convert_dttm Engine.vertica t d = convert_dttm Engine.postgres t d) ∧
    declaredConvertDttm Engine.oracle = some oracleConvertDttm ∧
    (∀ t d, convert_dttm Engine.oracle t d = oracleConvertDttm t d) :=
  ⟨rfl, rfl, rfl, fun _ _ => rfl, fun _ _ => rfl, rfl, rfl, rfl,
   fun _ _ => rfl, fun _ _ => rfl, rfl, fun _ _ => rfl⟩

/-- C5: for the sqlite engine, substituting the column expression ts into
the grain named week yields exactly the expected DATE fragment. -/
theorem c5_sqlite_week_grain_ts :
    (findGrain "week" (time_grains Engine.sqlite)).map
      (fun g => substColumn g.function "ts") =
      some "DATE(ts, -strftime('%w', ts) || ' days')" := by
  decide

/-- C6: mysql convert_dttm with target type DATE (matched after upper-casing,
likewise DATETIME) on 2021-01-15 00:00:00 returns the STR_TO_DATE call
wrapping the formatted string, not a bare quoted literal; any other target
type yields the bare quoted literal. -/
theorem c6_mysql_convert_dttm_branches :
    convert_dttm Engine.mysql "DATE" ⟨2021, 1, 15, 0, 0, 0, 0⟩ =
      Except.ok "STR_TO_DATE('2021-01-15 00:00:00', '%Y-%m-%d %H:%i:%s')" ∧
    convert_dttm Engine.mysql "date" ⟨2021, 1, 15, 0, 0, 0, 0⟩ =
      Except.ok "STR_TO_DATE('2021-01-15 00:00:00', '%Y-%m-%d %H:%i:%s')" ∧
    convert_dttm Engine.mysql "DateTime" ⟨2021, 1, 15, 0, 0, 0, 0⟩ =
      Except.ok "STR_TO_DATE('2021-01-15 00:00:00', '%Y-%m-%d %H:%i:%s')" ∧
    (∀ (t : String) (d : PyDatetime),
      pyUpper t ≠ "DATETIME" → pyUpper t ≠ "DATE" →
        convert_dttm Engine.mysql t d = Except.ok (quoteLit (strftimeYmdHMS d))) := by
  refine ⟨by decide, by decide, by decide, ?_⟩
  intro t d h1 h2
  show mysqlConvertDttm t d = Except.ok (quoteLit (strftimeYmdHMS d))
  simp [mysqlConvertDttm, h1, h2]

theorem c6_mysql_convert_dttm_branches_witness :
    convert_dttm Engine.mysql "VARCHAR" ⟨2021, 1, 15, 0, 0, 0, 0⟩ =
      Except.ok (quoteLit (strftimeYmdHMS ⟨2021, 1, 15, 0, 0, 0, 0⟩)) :=
  c6_mysql_convert_dttm_branches.2.2.2 "VARCHAR" ⟨2021, 1, 15, 0, 0, 0, 0⟩
    (by decide) (by decide)

/-- C7: the base epoch_to_dttm classmethod unconditionally raises
NotImplementedError; invoked on an engine that does not override it, it never
returns a template. -/
theorem c7_base_epoch_to_dttm_not_implemented :
    epoch_to_dttm Engine.base = Except.error PyError.notImplementedError :=
  rfl

/-- C8: for every engine class, the grain catalog obtained by attribute
resolution has pairwise-distinct grain names. -/
theorem c8_grain_names_nodup :
    ∀ e : Engine, ((time_grains e).map Grain.name).Nodup := by
  decide

/-- C9: the base convert_dttm returns the datetime formatted as
year-month-day hour:minute:second in single quotes, and its result does not
depend on the target type. -/
theorem c9_base_convert_dttm_ignores_target
    (target_type other : String) (dttm : PyDatetime) :
    convert_dttm Engine.base target_type dttm =
      Except.ok (quoteLit (strftimeYmdHMS dttm)) ∧
    convert_dttm Engine.base target_type dttm =
      convert_dttm Engine.base other dttm :=
  ⟨rfl, rfl⟩

/-- C10: the registry maps exactly the nine identifiers, in class-definition
order; the identifier base is itself registered and resolves to the base
spec, whose epoch-to-timestamp operation is unimplemented. -/
theorem c10_registry_contents :
    engines.map Prod.fst =
      ["base", "postgres", "sqlite", "mysql", "presto", "mssql",
       "redshift", "oracle", "vertica"] ∧
    lookupEngine "base" = some Engine.base ∧
    epoch_to_dttm Engine.base = Except.error PyError.notImplementedError := by
  decide
